import Mathlib

/-!
Verification of the spreadsheet ingestion pipeline of `sistema-x`.

The embedding follows the source files:
* `src/components/chat/ChatInterface.tsx` — the `process-file` serve handler
  (type inference, schema extraction, `data_imports` insert) and the
  `analyze-file` serve handler (status transitions, batched column inserts,
  `handleError`), plus the chat-side `getFileType`.
* `src/contexts/DataImportContext.tsx` — `uploadFile` (the `beginUpload`
  operation of the spec).
* `src/components/data/DataPreview.tsx` — `handleSave` (the `editCell`
  operation of the spec).
* `src/components/ai/FileUploader.tsx` — `getFileType` / `handleFileUpload`.

JavaScript scalars decoded from a spreadsheet cell are modelled by `Scalar`;
numbers are modelled as rationals (floating point rounding plays no role in
any claim).  `Date.parse` is an external runtime facility, so type inference
is parameterised by a predicate `dateParseOk` telling which strings it
accepts.
-/

namespace SistemaX

/-- A decoded spreadsheet cell value: JS `null`/`undefined`, a number, a
boolean, or a string. -/
inductive Scalar where
  | null : Scalar
  | num : ℚ → Scalar
  | bool : Bool → Scalar
  | str : String → Scalar
deriving DecidableEq, Repr

/-- JS truthiness of a scalar, as used by `sample && !isNaN(Date.parse(sample))`. -/
def Scalar.truthy : Scalar → Bool
  | .null => false
  | .num q => q ≠ 0
  | .bool b => b
  | .str s => s ≠ ""

/-- JS `Number.isInteger` on the rational model of a number. -/
def jsIsInteger (q : ℚ) : Bool := q.den = 1

/-- The type-inference callback of the `process-file` handler
(`ChatInterface.tsx` lines 345–355):

    let type = 'text'
    if (typeof sample === 'number') {
      type = Number.isInteger(sample) ? 'integer' : 'numeric'
    } else if (typeof sample === 'boolean') {
      type = 'boolean'
    } else if (sample && !isNaN(Date.parse(sample))) {
      type = 'timestamp'
    }

`dateParseOk s` models `!isNaN(Date.parse(s))`. -/
def classify (dateParseOk : String → Bool) : Scalar → String
  | .num q => if jsIsInteger q then "integer" else "numeric"
  | .bool _ => "boolean"
  | .null => "text"
  | .str s => if (Scalar.str s).truthy && dateParseOk s then "timestamp" else "text"

/-- The five semantic type tags. -/
def typeTags : List String := ["text", "integer", "numeric", "boolean", "timestamp"]

/-- C4: The type-inference callback is total and always yields one of the five
tags; on the representative inputs it returns `text` for null, `integer`
for 3, `numeric` for 3.5, `boolean` for true, and — whenever the runtime
date parser accepts "2024-01-01" and rejects "hello" — `timestamp` and
`text` respectively for those strings. -/
theorem classify_total_and_representative (dateParseOk : String → Bool)
    (v : Scalar)
    (h1 : dateParseOk "2024-01-01" = true) (h2 : dateParseOk "hello" = false) :
    classify dateParseOk v ∈ typeTags ∧
    classify dateParseOk Scalar.null = "text" ∧
    classify dateParseOk (Scalar.num 3) = "integer" ∧
    classify dateParseOk (Scalar.num (7/2)) = "numeric" ∧
    classify dateParseOk (Scalar.bool true) = "boolean" ∧
    classify dateParseOk (Scalar.str "2024-01-01") = "timestamp" ∧
    classify dateParseOk (Scalar.str "hello") = "text" := by
  refine ⟨?_, rfl, by norm_num [classify, jsIsInteger],
    by norm_num [classify, jsIsInteger], rfl, ?_, ?_⟩
  · cases v with
    | null => simp [classify, typeTags]
    | num q => by_cases h : jsIsInteger q <;> simp [classify, h, typeTags]
    | bool b => simp [classify, typeTags]
    | str s =>
        by_cases h : ((Scalar.str s).truthy && dateParseOk s) = true <;>
          simp [classify, h, typeTags]
  · simp [classify, Scalar.truthy, h1]
  · simp [classify, Scalar.truthy, h2]

/-- Witness for C4 at a concrete date-parse model and input. -/
theorem classify_total_and_representative_witness :
    (fun s => s = "2024-01-01" : String → Bool) "2024-01-01" = true ∧
    (fun s => s = "2024-01-01" : String → Bool) "hello" = false ∧
    classify (fun s => s = "2024-01-01") (Scalar.str "hello") ∈ typeTags := by
  refine ⟨by decide, by decide, ?_⟩
  exact (classify_total_and_representative (fun s => s = "2024-01-01")
    (Scalar.str "hello") (by decide) (by decide)).1

/-- C10: A string sample is only ever classified `timestamp` or `text`, and a
null sample is classified `text`; hence the `integer`, `numeric` and
`boolean` tags arise only from values that are numbers or booleans in the
decoded data — a numeric-looking string is never classified `integer`. -/
theorem classify_string_never_numeric (dateParseOk : String → Bool) (s : String) :
    (classify dateParseOk (Scalar.str s) = "timestamp" ∨
     classify dateParseOk (Scalar.str s) = "text") ∧
    classify dateParseOk Scalar.null = "text" := by
  constructor
  · by_cases h : ((Scalar.str s).truthy && dateParseOk s) = true
    · exact Or.inl (by simp [classify, h])
    · exact Or.inr (by simp [classify, h])
  · rfl

/-! ## Schema extraction (`process-file` serve handler, `ChatInterface.tsx` 332–362) -/

/-- Approximation of JS number-to-string conversion on the rational model.
No theorem in this file depends on the string form of a numeric sample. -/
def numToString (q : ℚ) : String :=
  if q.den = 1 then toString q.num else toString q.num ++ "/" ++ toString q.den

/-- The expression `sample?.toString() || ''`: optional chaining maps
`null`/`undefined` to `undefined`, and `|| ''` turns the falsy results into
the empty string. -/
def jsDisplay : Scalar → String
  | .null => ""
  | .num q => numToString q
  | .bool b => if b then "true" else "false"
  | .str s => s

/-- JS array indexing `row[i]`: out-of-range access yields `undefined`,
modelled as `Scalar.null` (both are falsy and display as the empty
string). -/
def jsIndex (row : List Scalar) (i : Nat) : Scalar := row.getD i Scalar.null

/-- The unchecked cast `jsonData[0] as string[]`: header cells are consumed
as strings; a non-string header cell flows through its string conversion. -/
def asString : Scalar → String
  | .str s => s
  | v => jsDisplay v

/-- A column descriptor as built by the `process-file` handler: only `name`,
`type` and `sample` fields (lines 357–361). -/
structure Column where
  name : String
  type : String
  sample : String
deriving DecidableEq, Repr

/-- The body of `headers.map((header, index) => ...)` (lines 345–362),
written as explicit recursion carrying the running JS map index. -/
def extractFrom (dateParseOk : String → Bool) (sampleData : List Scalar) :
    Nat → List String → List Column
  | _, [] => []
  | index, header :: rest =>
      { name := header,
        type := classify dateParseOk (jsIndex sampleData index),
        sample := jsDisplay (jsIndex sampleData index) }
        :: extractFrom dateParseOk sampleData (index + 1) rest

/-- The schema extractor: `headers.map((header, index) => {...})` where
`sampleData` is the single sample row the handler provides. -/
def extract (dateParseOk : String → Bool) (headers : List String)
    (sampleData : List Scalar) : List Column :=
  extractFrom dateParseOk sampleData 0 headers

/-- The tabular part of the `process-file` handler after XLSX decoding
(lines 332–362): reject fewer than two rows, take row 0 as the header row,
row 1 as the sample row, and extract one descriptor per header.  Returns
the descriptor list and `totalRows = jsonData.length - 1`. -/
def processFile (dateParseOk : String → Bool) (jsonData : List (List Scalar)) :
    Except String (List Column × Nat) :=
  if jsonData.length < 2 then
    Except.error "File must contain at least a header row and one data row"
  else
    let headers := (jsonData.headD []).map asString
    let sampleData := jsonData.getD 1 []
    Except.ok (extract dateParseOk headers sampleData, jsonData.length - 1)

theorem extractFrom_length (dateParseOk : String → Bool) (sampleData : List Scalar) :
    ∀ (k : Nat) (hs : List String),
      (extractFrom dateParseOk sampleData k hs).length = hs.length
  | _, [] => rfl
  | k, _ :: t => by
      simp [extractFrom, extractFrom_length dateParseOk sampleData (k + 1) t]

theorem extractFrom_get? (dateParseOk : String → Bool) (sampleData : List Scalar) :
    ∀ (k : Nat) (hs : List String) (i : Nat),
      (extractFrom dateParseOk sampleData k hs).get? i =
        (hs.get? i).map (fun header =>
          { name := header,
            type := classify dateParseOk (jsIndex sampleData (k + i)),
            sample := jsDisplay (jsIndex sampleData (k + i)) })
  | _, [], i => by cases i <;> rfl
  | k, h :: t, 0 => rfl
  | k, h :: t, i + 1 => by
      have ih := extractFrom_get? dateParseOk sampleData (k + 1) t i
      simpa [extractFrom, Nat.add_assoc, Nat.add_comm, Nat.add_left_comm] using ih

/-- C5: For every header row and every sample row, `extract` returns exactly
one column descriptor per header position, in header order, and the
descriptor at position `i` carries the name `headers[i]`. -/
theorem extract_one_descriptor_per_header (dateParseOk : String → Bool)
    (headers : List String) (sampleData : List Scalar) :
    (extract dateParseOk headers sampleData).length = headers.length ∧
    ∀ i : Nat,
      ((extract dateParseOk headers sampleData).get? i).map Column.name =
        headers.get? i := by
  constructor
  · exact extractFrom_length dateParseOk sampleData 0 headers
  · intro i
    rw [extract, extractFrom_get? dateParseOk sampleData 0 headers i]
    cases headers.get? i <;> simp

/-- Definition following the spec's words (section 4.2), for comparison with
the code: the representative sample at position `i` is the first non-null
value found across all provided sample rows at position `i`. -/
def specSample (sampleRows : List (List Scalar)) (i : Nat) : Scalar :=
  ((sampleRows.map (fun r => jsIndex r i)).filter (fun v => v ≠ Scalar.null)).headD
    Scalar.null

/-- C6 counterexample: on the data `[["a"], [null], ["x"]]` the code's
representative sample for column 0 is the empty display of the first data
row's null cell, whereas the first non-null value across the sample rows is
`"x"` — so the sample is not the first non-null value across the rows, and
the produced descriptor carries no null or unique counts at all. -/
theorem process_sample_not_first_nonnull :
    processFile (fun _ => false)
        [[Scalar.str "a"], [Scalar.null], [Scalar.str "x"]] =
      Except.ok ([{ name := "a", type := "text", sample := "" }], 2) ∧
    jsDisplay (specSample [[Scalar.null], [Scalar.str "x"]] 0) = "x" ∧
    ("" : String) ≠ "x" := by
  refine ⟨rfl, rfl, by decide⟩

/-- C6 amended: the representative sample of column `i` is the display of
the value at position `i` of the single provided sample row (the first data
row) — null displays as the empty string — and the descriptors carry only
name, type and sample; in `processFile` that sample row is `jsonData[1]`. -/
theorem extract_sample_from_first_data_row (dateParseOk : String → Bool)
    (headers : List String) (sampleData : List Scalar)
    (jsonData : List (List Scalar)) (h : 2 ≤ jsonData.length) :
    (∀ i : Nat,
      ((extract dateParseOk headers sampleData).get? i).map Column.sample =
        (headers.get? i).map (fun _ => jsDisplay (jsIndex sampleData i))) ∧
    processFile dateParseOk jsonData =
      Except.ok
        (extract dateParseOk ((jsonData.headD []).map asString)
          (jsonData.getD 1 []),
         jsonData.length - 1) := by
  constructor
  · intro i
    rw [extract, extractFrom_get? dateParseOk sampleData 0 headers i]
    cases headers.get? i <;> simp
  · rw [processFile, if_neg (by omega)]

/-- Witness for the amended C6 at concrete inputs. -/
theorem extract_sample_from_first_data_row_witness :
    2 ≤ ([[Scalar.str "a"], [Scalar.num 3]] : List (List Scalar)).length ∧
    processFile (fun _ => false) [[Scalar.str "a"], [Scalar.num 3]] =
      Except.ok
        (extract (fun _ => false)
          (([[Scalar.str "a"], [Scalar.num 3]] : List (List Scalar)).headD [] |>.map asString)
          (([[Scalar.str "a"], [Scalar.num 3]] : List (List Scalar)).getD 1 []),
         ([[Scalar.str "a"], [Scalar.num 3]] : List (List Scalar)).length - 1) := by
  exact ⟨by decide,
    (extract_sample_from_first_data_row (fun _ => false) ["a"] [Scalar.num 3]
      [[Scalar.str "a"], [Scalar.num 3]] (by decide)).2⟩

/-! ## Import records and `uploadFile` (`DataImportContext.tsx` 59–121) -/

/-- A `data_imports` record, with the fields the core operations read or
write.  Fields absent from an insert payload are `none` (SQL null). -/
structure ImportRecord where
  organization_id : String
  name : String
  table_name : String
  original_filename : String
  columns_metadata : List Column
  status : String
  storage_path : Option String
  error_message : Option String
  row_count : Option Nat
deriving DecidableEq, Repr

/-- JS `replace(/\s+/g, "_")`: every maximal run of whitespace becomes a
single underscore. -/
def collapseWhitespace (s : String) : String :=
  String.mk (s.toList.foldl
    (fun (acc : List Char × Bool) c =>
      if c.isWhitespace then
        if acc.2 then acc else (acc.1 ++ ['_'], true)
      else (acc.1 ++ [c], false))
    ([], false)).1

/-- JS `replace(/\.[^/.]+$/, "")`: drop a trailing dot-extension (a final
`.` followed by one or more characters none of which is `/` or `.`). -/
def stripExtension (s : String) : String :=
  let rev := s.toList.reverse
  let ext := rev.takeWhile (fun c => c ≠ '.' && c ≠ '/')
  if ext ≠ [] && (rev.drop ext.length).headD ' ' = '.' then
    String.mk ((rev.drop (ext.length + 1)).reverse)
  else s

/-- The derived table name of `uploadFile`:
`file.name.replace(/\.[^/.]+$/, "").toLowerCase().replace(/\s+/g, "_")`. -/
def tableNameOf (fileName : String) : String :=
  collapseWhitespace (stripExtension fileName).toLower

/-- The `data_imports` insert payload of `uploadFile` (lines 67–84): a
`pending` record with no storage path and no error message. -/
def uploadInsert (orgId fileName : String) : ImportRecord :=
  { organization_id := orgId
    name := fileName
    table_name := tableNameOf fileName
    original_filename := fileName
    columns_metadata := []
    status := "pending"
    storage_path := none
    error_message := none
    row_count := none }

/-- The storage path `uploadFile` requests for the raw bytes (line 88). -/
def uploadPath (orgId importId fileName : String) : String :=
  orgId ++ "/" ++ importId ++ "/" ++ fileName

/-- `uploadFile` (lines 59–121), modelled over the success of its three
collaborator calls (record insert, blob upload, record update).  Returns
the final state of the import record in the record store (`none` when the
insert itself failed) and the thrown/returned result.  The record is
created in `pending` with no storage path; the bytes are then uploaded to
`uploadPath`; only after a successful upload is the record updated to
`processing` carrying that path.  Every failure throws, leaving the record
in its last written state. -/
def uploadFile (orgId importId fileName : String)
    (insertOk storageOk updateOk : Bool) :
    Option ImportRecord × Except String String :=
  if !insertOk then
    (none, Except.error "importError")
  else
    let created := uploadInsert orgId fileName
    if !storageOk then
      (some created, Except.error "uploadError")
    else if !updateOk then
      (some created, Except.error "updateError")
    else
      (some { created with
                status := "processing"
                storage_path := some (uploadPath orgId importId fileName) },
       Except.ok importId)

/-- C8: `uploadFile` creates the import record in `pending`, requests byte
storage at `orgId/importId/filename`, and updates the record to
`processing` with that path; when byte storage fails the record remains
`pending` with no storage path. -/
theorem uploadFile_two_phase (orgId importId fileName : String) (updateOk : Bool) :
    (uploadInsert orgId fileName).status = "pending" ∧
    (uploadInsert orgId fileName).storage_path = none ∧
    uploadPath orgId importId fileName = orgId ++ "/" ++ importId ++ "/" ++ fileName ∧
    (uploadFile orgId importId fileName true true true).1 =
      some { uploadInsert orgId fileName with
               status := "processing"
               storage_path := some (uploadPath orgId importId fileName) } ∧
    (uploadFile orgId importId fileName true false updateOk).1 =
      some (uploadInsert orgId fileName) ∧
    (uploadFile orgId importId fileName true false updateOk).2 =
      Except.error "uploadError" := by
  refine ⟨rfl, rfl, rfl, rfl, ?_, ?_⟩ <;> simp [uploadFile]

/-! ## `handleError` and the C1 record invariant -/

/-- `handleError` of the `analyze-file` handler (`ChatInterface.tsx`
618–627): update the import record to status `error` carrying the
message. -/
def handleError (errorMessage : String) (r : ImportRecord) : ImportRecord :=
  { r with status := "error", error_message := some errorMessage }

/-- The `data_imports` insert of the `process-file` handler (lines
369–379): a record with status `analyzing`, the extracted columns and the
row count — and no `storage_path` or `error_message` fields. -/
def processFileRecord (dateParseOk : String → Bool) (orgId fileName : String)
    (jsonData : List (List Scalar)) : Except String ImportRecord :=
  (processFile dateParseOk jsonData).map fun res =>
    { organization_id := orgId
      name := fileName
      table_name := ""
      original_filename := fileName
      columns_metadata := res.1
      status := "analyzing"
      storage_path := none
      error_message := none
      row_count := some res.2 }

/-- The claimed record invariant: storage path present iff the status is
past `pending`, error message present iff the status is `error`. -/
def importInvariant (r : ImportRecord) : Bool :=
  (r.storage_path.isSome == decide (r.status ≠ "pending")) &&
  (r.error_message.isSome == decide (r.status = "error"))

/-- C1 counterexample: the `process-file` insert produces a record in
status `analyzing` (past `pending`) with a null `storage_path`, so the
claimed invariant fails on a record produced by a core operation. -/
theorem import_invariant_counterexample :
    (processFileRecord (fun _ => false) "org" "f.xlsx"
        [[Scalar.str "a"], [Scalar.num 3]]).toOption.map
        (fun r => (r.status, r.storage_path, importInvariant r)) =
      some ("analyzing", none, false) := by
  rfl

/-- C1 amended: the invariant holds for the records written by
`uploadFile` (the `pending` insert and the `processing` update), and
`handleError` establishes the error half (status `error` with the message
attached); but the `process-file` insert always creates its record in
status `analyzing` with a null `storage_path`, violating the storage-path
half. -/
theorem import_invariant_amended (orgId importId fileName msg : String)
    (r rec : ImportRecord) (dateParseOk : String → Bool)
    (jsonData : List (List Scalar))
    (h : processFileRecord dateParseOk orgId fileName jsonData = Except.ok rec) :
    importInvariant (uploadInsert orgId fileName) = true ∧
    (uploadFile orgId importId fileName true true true).1.map importInvariant =
      some true ∧
    (handleError msg r).status = "error" ∧
    (handleError msg r).error_message = some msg ∧
    rec.status = "analyzing" ∧ rec.storage_path = none := by
  have hrec : rec.status = "analyzing" ∧ rec.storage_path = none := by
    rw [processFileRecord] at h
    cases hp : processFile dateParseOk jsonData with
    | error e =>
        rw [hp] at h
        simp [Except.map] at h
    | ok v =>
        rw [hp] at h
        simp only [Except.map] at h
        injection h with h'
        subst h'
        exact ⟨rfl, rfl⟩
  exact ⟨rfl, rfl, rfl, rfl, hrec.1, hrec.2⟩

/-- Witness for the amended C1 at concrete inputs. -/
theorem import_invariant_amended_witness :
    processFileRecord (fun _ => false) "org" "f.xlsx"
        [[Scalar.str "a"], [Scalar.num 3]] =
      Except.ok
        { organization_id := "org"
          name := "f.xlsx"
          table_name := ""
          original_filename := "f.xlsx"
          columns_metadata := [{ name := "a", type := "integer", sample := "3" }]
          status := "analyzing"
          storage_path := none
          error_message := none
          row_count := some 1 } ∧
    importInvariant (uploadInsert "org" "f.xlsx") = true := by
  refine ⟨rfl, (import_invariant_amended "org" "imp" "f.xlsx" "m"
    (uploadInsert "org" "f.xlsx") _ (fun _ => false)
    [[Scalar.str "a"], [Scalar.num 3]] rfl).1⟩

/-! ## Batched column persistence (`analyze-file` handler, lines 425 and 553–577) -/

/-- `const BATCH_SIZE = 25` (line 425). -/
def BATCH_SIZE : Nat := 25

/-- The slicing of the batch loop
`for (let i = 0; i < columns.length; i += BATCH_SIZE) columns.slice(i, i + BATCH_SIZE)`:
successive chunks of at most `BATCH_SIZE` columns, in column order. -/
def columnBatches {α : Type} : List α → List (List α)
  | [] => []
  | c :: cs =>
      (c :: cs).take BATCH_SIZE :: columnBatches ((c :: cs).drop BATCH_SIZE)
termination_by columns => columns.length
decreasing_by
  simp only [List.length_drop, List.length_cons, BATCH_SIZE]
  omega

/-- The sequential insert loop over the batches: each batch is inserted in
turn; the first failing insert calls `handleError` and throws, ending the
loop.  Returns the batches actually inserted (never removed again) and
whether all inserts succeeded. -/
def runBatches {α : Type} (insertOk : List α → Bool) :
    List (List α) → List (List α) × Bool
  | [] => ([], true)
  | b :: bs =>
      if insertOk b then
        ((b :: (runBatches insertOk bs).1), (runBatches insertOk bs).2)
      else ([], false)

theorem columnBatches_join {α : Type} : ∀ columns : List α,
    (columnBatches columns).flatten = columns
  | [] => by simp [columnBatches]
  | c :: cs => by
      rw [columnBatches, List.flatten_cons,
        columnBatches_join ((c :: cs).drop BATCH_SIZE)]
      exact List.take_append_drop BATCH_SIZE (c :: cs)
termination_by columns => columns.length
decreasing_by
  simp only [List.length_drop, List.length_cons, BATCH_SIZE]
  omega

theorem columnBatches_length {α : Type} : ∀ columns : List α,
    (columnBatches columns).length =
      (columns.length + (BATCH_SIZE - 1)) / BATCH_SIZE
  | [] => by simp [columnBatches, BATCH_SIZE]
  | c :: cs => by
      rw [columnBatches, List.length_cons,
        columnBatches_length ((c :: cs).drop BATCH_SIZE)]
      simp only [List.length_drop, List.length_cons, BATCH_SIZE]
      omega
termination_by columns => columns.length
decreasing_by
  simp only [List.length_drop, List.length_cons, BATCH_SIZE]
  omega

theorem columnBatches_size_le {α : Type} : ∀ columns : List α,
    ∀ b ∈ columnBatches columns, b.length ≤ BATCH_SIZE
  | [] => by simp [columnBatches]
  | c :: cs => by
      intro b hb
      rw [columnBatches] at hb
      rcases List.mem_cons.mp hb with h | h
      · subst h
        simp
      · exact columnBatches_size_le ((c :: cs).drop BATCH_SIZE) b h
termination_by columns => columns.length
decreasing_by
  simp only [List.length_drop, List.length_cons, BATCH_SIZE]
  omega

theorem runBatches_eq {α : Type} (insertOk : List α → Bool) :
    ∀ bs : List (List α),
      runBatches insertOk bs = (bs.takeWhile insertOk, bs.all insertOk)
  | [] => rfl
  | b :: bs => by
      by_cases h : insertOk b <;>
        simp [runBatches, h, runBatches_eq insertOk bs, List.takeWhile_cons]

/-! ## The `analyze-file` serve handler (`ChatInterface.tsx` 427–615) -/

/-- The environment of one `analyze-file` invocation: the fetched import
record and the outcome of each collaborator call, plus the decoded
workbook content (`sheetNames`, and `rows` as the objects produced by
`sheet_to_json`, keyed by column name). -/
structure AnalyzeEnv where
  fetched : Option ImportRecord
  statusUpdateOk : Bool
  downloadOk : Bool
  downloadErrorMessage : String
  convertOk : Bool
  readOk : Bool
  sheetNames : List String
  rows : List (List (String × Scalar))
  batchInsertOk : List String → Bool
  batchErrorMessage : String
  finalUpdateOk : Bool

/-- The outcome of one `analyze-file` invocation: the final state of the
record of the import in the record store, the column-name batches actually
inserted into `data_file_columns`, and the HTTP-level result. -/
structure AnalyzeResult where
  record : Option ImportRecord
  insertedColumns : List (List String)
  response : Except String Nat

/-- The `analyze-file` handler, step by step in source order: fetch the
record (throwing without any record write when it fails), update the
status to `analyzing` (throwing without `handleError` when the update
fails), download the blob, convert it, read the workbook (each of these
three calling `handleError` before throwing), reject a sheetless workbook
(throwing without `handleError`), reject an empty decode (`handleError`),
insert the column batches sequentially (`handleError` on the first failing
batch, keeping the batches already inserted), and finally update the
record to `editing` with the row count (throwing without `handleError`
when that update fails). -/
def analyze (env : AnalyzeEnv) : AnalyzeResult :=
  match env.fetched with
  | none => ⟨none, [], Except.error "Arquivo não encontrado"⟩
  | some r0 =>
    if !env.statusUpdateOk then
      ⟨some r0, [], Except.error "updateError"⟩
    else
      let r1 := { r0 with status := "analyzing" }
      if !env.downloadOk then
        ⟨some (handleError ("Erro ao baixar arquivo: " ++ env.downloadErrorMessage) r1),
         [], Except.error "downloadError"⟩
      else if !env.convertOk then
        ⟨some (handleError "Erro ao converter arquivo" r1), [],
         Except.error "convertError"⟩
      else if !env.readOk then
        ⟨some (handleError "Erro ao ler arquivo Excel" r1), [],
         Except.error "readError"⟩
      else if env.sheetNames.isEmpty then
        ⟨some r1, [], Except.error "Arquivo Excel não contém planilhas"⟩
      else if env.rows.isEmpty then
        ⟨some (handleError "Arquivo está vazio" r1), [],
         Except.error "Arquivo está vazio"⟩
      else
        let columns := (env.rows.headD []).map Prod.fst
        let run := runBatches env.batchInsertOk (columnBatches columns)
        if !run.2 then
          ⟨some (handleError ("Erro ao processar colunas: " ++ env.batchErrorMessage) r1),
           run.1, Except.error "batchError"⟩
        else if !env.finalUpdateOk then
          ⟨some r1, run.1, Except.error "finalUpdateError"⟩
        else
          ⟨some { r1 with status := "editing", row_count := some env.rows.length },
           run.1, Except.ok env.rows.length⟩

/-- A concrete import record in status `processing`, as left by a
successful `uploadFile`. -/
def recProcessing : ImportRecord :=
  { organization_id := "org"
    name := "f"
    table_name := "f"
    original_filename := "f"
    columns_metadata := []
    status := "processing"
    storage_path := some "org/imp/f"
    error_message := none
    row_count := none }

/-- An `analyze-file` environment whose initial status update fails. -/
def envUpdateFail : AnalyzeEnv :=
  { fetched := some recProcessing
    statusUpdateOk := false
    downloadOk := true
    downloadErrorMessage := ""
    convertOk := true
    readOk := true
    sheetNames := ["Sheet1"]
    rows := [[("a", Scalar.num 1)]]
    batchInsertOk := fun _ => true
    batchErrorMessage := ""
    finalUpdateOk := true }

/-- An `analyze-file` environment whose blob download fails. -/
def envDownloadFail : AnalyzeEnv :=
  { envUpdateFail with
    statusUpdateOk := true
    downloadOk := false
    downloadErrorMessage := "boom" }

/-- C2 counterexample: when the initial status update fails, `analyze`
returns a failure response while the import record is left in its prior
status `processing` with no error message — a failure path that exits
without any terminal error-state write. -/
theorem analyze_no_terminal_write_counterexample :
    (analyze envUpdateFail).record.map (fun r => (r.status, r.error_message)) =
      some ("processing", none) ∧
    (analyze envUpdateFail).response = Except.error "updateError" ∧
    ("processing" : String) ≠ "error" := by
  exact ⟨rfl, rfl, by decide⟩

/-- C2 amended: the download, conversion, workbook-read, empty-file and
batch-insert failures each write a terminal `error` status carrying the
triggering message (via `handleError`) before the exception propagates;
but the record-fetch, initial status-update, missing-sheet and
final-update failures return without any terminal-state write, leaving
the record in its previous status. -/
theorem analyze_terminal_writes (env : AnalyzeEnv) (r0 : ImportRecord)
    (h : env.fetched = some r0) (hs : env.statusUpdateOk = true) :
    (env.downloadOk = false →
      (analyze env).record =
        some (handleError ("Erro ao baixar arquivo: " ++ env.downloadErrorMessage)
          { r0 with status := "analyzing" })) ∧
    (env.downloadOk = true → env.convertOk = false →
      (analyze env).record =
        some (handleError "Erro ao converter arquivo" { r0 with status := "analyzing" })) ∧
    (env.downloadOk = true → env.convertOk = true → env.readOk = false →
      (analyze env).record =
        some (handleError "Erro ao ler arquivo Excel" { r0 with status := "analyzing" })) ∧
    (env.downloadOk = true → env.convertOk = true → env.readOk = true →
      env.sheetNames.isEmpty = false → env.rows.isEmpty = true →
      (analyze env).record =
        some (handleError "Arquivo está vazio" { r0 with status := "analyzing" })) ∧
    (env.downloadOk = true → env.convertOk = true → env.readOk = true →
      env.sheetNames.isEmpty = false → env.rows.isEmpty = false →
      (runBatches env.batchInsertOk
        (columnBatches ((env.rows.headD []).map Prod.fst))).2 = false →
      (analyze env).record =
        some (handleError ("Erro ao processar colunas: " ++ env.batchErrorMessage)
          { r0 with status := "analyzing" })) ∧
    (∀ msg r, (handleError msg r).status = "error" ∧
      (handleError msg r).error_message = some msg) ∧
    (env.downloadOk = true → env.convertOk = true → env.readOk = true →
      env.sheetNames.isEmpty = true →
      (analyze env).record = some { r0 with status := "analyzing" }) ∧
    (env.downloadOk = true → env.convertOk = true → env.readOk = true →
      env.sheetNames.isEmpty = false → env.rows.isEmpty = false →
      (runBatches env.batchInsertOk
        (columnBatches ((env.rows.headD []).map Prod.fst))).2 = true →
      env.finalUpdateOk = false →
      (analyze env).record = some { r0 with status := "analyzing" }) := by
  refine ⟨?_, ?_, ?_, ?_, ?_, fun msg r => ⟨rfl, rfl⟩, ?_, ?_⟩ <;>
    · intros
      try simp only [List.headD_eq_head?] at *
      simp [analyze, h, hs, *]

/-- Witness for the amended C2: a download failure on a concrete
environment yields the terminal `error` record write. -/
theorem analyze_terminal_writes_witness :
    envDownloadFail.fetched = some recProcessing ∧
    envDownloadFail.statusUpdateOk = true ∧
    (analyze envDownloadFail).record =
      some (handleError ("Erro ao baixar arquivo: " ++ "boom")
        { recProcessing with status := "analyzing" }) := by
  refine ⟨rfl, rfl, ?_⟩
  exact (analyze_terminal_writes envDownloadFail recProcessing rfl rfl).1 rfl

/-- An `analyze-file` environment in which every step succeeds. -/
def envAnalyzeOk : AnalyzeEnv :=
  { envUpdateFail with statusUpdateOk := true }

/-- C9: during `analyze`, the column descriptors are persisted in
`ceil(n / 25)` batches of at most `BATCH_SIZE = 25` columns each, issued
strictly sequentially in header-column order (their concatenation is the
original column list in order); the batches actually inserted are exactly
those preceding the first failing batch — the loop stops there and the
batches already persisted are not rolled back. -/
theorem analyze_batching (columns : List String) (insertOk : List String → Bool)
    (env : AnalyzeEnv) (r0 : ImportRecord)
    (h : env.fetched = some r0) (h1 : env.statusUpdateOk = true)
    (h2 : env.downloadOk = true) (h3 : env.convertOk = true)
    (h4 : env.readOk = true) (h5 : env.sheetNames.isEmpty = false)
    (h6 : env.rows.isEmpty = false) :
    (columnBatches columns).length =
      (columns.length + (BATCH_SIZE - 1)) / BATCH_SIZE ∧
    (∀ b ∈ columnBatches columns, b.length ≤ BATCH_SIZE) ∧
    (columnBatches columns).flatten = columns ∧
    runBatches insertOk (columnBatches columns) =
      ((columnBatches columns).takeWhile insertOk,
       (columnBatches columns).all insertOk) ∧
    (analyze env).insertedColumns =
      (columnBatches ((env.rows.headD []).map Prod.fst)).takeWhile
        env.batchInsertOk := by
  refine ⟨columnBatches_length columns, columnBatches_size_le columns,
    columnBatches_join columns, runBatches_eq insertOk (columnBatches columns), ?_⟩
  have hrun := runBatches_eq env.batchInsertOk
    (columnBatches ((env.rows.headD []).map Prod.fst))
  simp only [List.headD_eq_head?] at hrun ⊢
  simp [analyze, h, h1, h2, h3, h4, h5, h6, hrun]
  split
  · rfl
  · split <;> rfl

/-- Witness for C9 on a concrete fully-successful environment. -/
theorem analyze_batching_witness :
    envAnalyzeOk.fetched = some recProcessing ∧
    envAnalyzeOk.rows.isEmpty = false ∧
    (analyze envAnalyzeOk).insertedColumns =
      (columnBatches ((envAnalyzeOk.rows.headD []).map Prod.fst)).takeWhile
        envAnalyzeOk.batchInsertOk := by
  refine ⟨rfl, rfl, ?_⟩
  exact (analyze_batching [] (fun _ => true) envAnalyzeOk recProcessing
    rfl rfl rfl rfl rfl rfl rfl).2.2.2.2

/-! ## Cell editing (`DataPreview.tsx` 72–116) -/

/-- A `data_file_changes` audit record, as inserted by `handleSave`
(lines 91–100). -/
structure CellChange where
  file_id : String
  row_id : String
  column_name : String
  old_value : String
  new_value : String
  organization_id : String
deriving DecidableEq, Repr

/-- The preview page state: the locally loaded rows (objects mapping
column names to cell values) and the audit table. -/
structure PreviewState where
  data : List (List (String × String))
  changes : List CellChange
deriving DecidableEq, Repr

/-- JS property read `row[columnName]` on a row object. -/
def rowGet (row : List (String × String)) (columnName : String) : String :=
  ((row.find? (fun p => p.1 == columnName)).map Prod.snd).getD ""

/-- JS `{...row, [columnName]: value}`: replace the property in place if
present, append it otherwise. -/
def rowSet (row : List (String × String)) (columnName value : String) :
    List (String × String) :=
  if row.any (fun p => p.1 == columnName) then
    row.map (fun p => if p.1 == columnName then (p.1, value) else p)
  else row ++ [(columnName, value)]

/-- `handleSave` (lines 72–116): first the local data is updated via
`setData` (lines 84–89) — the visible change — and only then is the audit
record inserted into `data_file_changes`; a failing insert is caught and
toasted, leaving the applied local change in place.  `old_value` is read
from the pre-save row object. -/
def handleSave (fileId orgId : String) (insertOk : Bool) (rowIndex : Nat)
    (columnName value : String) (st : PreviewState) : PreviewState :=
  let newData :=
    st.data.set rowIndex (rowSet (st.data.getD rowIndex []) columnName value)
  let oldValue := rowGet (st.data.getD rowIndex []) columnName
  if insertOk then
    { data := newData
      changes := st.changes ++
        [{ file_id := fileId
           row_id := toString rowIndex
           column_name := columnName
           old_value := oldValue
           new_value := value
           organization_id := orgId }] }
  else
    { data := newData, changes := st.changes }

/-- C3 counterexample: when the audit insert fails, the edited cell value
is still visible in the preview data while no audit record exists — the
audit record is not written before (or atomically with) the visible
change. -/
theorem handleSave_audit_counterexample :
    handleSave "f" "o" false 0 "a" "2" { data := [[("a", "1")]], changes := [] } =
      { data := [[("a", "2")]], changes := [] } ∧
    ([[("a", "2")]] : List (List (String × String))) ≠ [[("a", "1")]] := by
  exact ⟨rfl, by decide⟩

/-- C3 amended: `handleSave` applies the visible cell change first, then —
only when the audit insert succeeds — appends exactly one audit record
capturing the pre-save old value and the new value; when the audit insert
fails, the visible change remains and no audit record is added. -/
theorem handleSave_applies_then_audits (fileId orgId : String) (rowIndex : Nat)
    (columnName value : String) (st : PreviewState) :
    (handleSave fileId orgId true rowIndex columnName value st).data =
      st.data.set rowIndex (rowSet (st.data.getD rowIndex []) columnName value) ∧
    (handleSave fileId orgId false rowIndex columnName value st).data =
      st.data.set rowIndex (rowSet (st.data.getD rowIndex []) columnName value) ∧
    (handleSave fileId orgId true rowIndex columnName value st).changes =
      st.changes ++
        [{ file_id := fileId
           row_id := toString rowIndex
           column_name := columnName
           old_value := rowGet (st.data.getD rowIndex []) columnName
           new_value := value
           organization_id := orgId }] ∧
    (handleSave fileId orgId false rowIndex columnName value st).changes =
      st.changes :=
  ⟨rfl, rfl, rfl, rfl⟩

/-! ## Declared file kinds (`FileUploader.tsx` 11–82) -/

/-- The declared file kinds (`file_type` enum). -/
inductive FileType where
  | json : FileType
  | csv : FileType
  | excel : FileType
  | access : FileType
deriving DecidableEq, Repr

/-- JS `toLowerCase()` on an extension, written over the character list so
that it evaluates inside the kernel. -/
def jsToLower (s : String) : String := String.mk (s.toList.map Char.toLower)

/-- `getFileType` of `FileUploader.tsx` (lines 11–26): switch over the
lowercased extension; an unrecognized extension throws. -/
def getFileType (extension : String) : Except String FileType :=
  match jsToLower extension with
  | "csv" => Except.ok FileType.csv
  | "xls" => Except.ok FileType.excel
  | "xlsx" => Except.ok FileType.excel
  | "mdb" => Except.ok FileType.access
  | "accdb" => Except.ok FileType.access
  | "json" => Except.ok FileType.json
  | _ => Except.error "Tipo de arquivo não suportado"

/-- What one `handleFileUpload` run left behind: whether the raw bytes were
stored, whether a `data_files` record was created, and the surfaced
error. -/
structure UploadOutcome where
  storedBytes : Bool
  insertedRecord : Bool
  errorMessage : Option String
deriving DecidableEq, Repr

/-- `handleFileUpload` of `FileUploader.tsx` (lines 33–82): the blob upload
runs first; `getFileType(fileExt)` is only evaluated while building the
`data_files` insert payload, after the bytes are already stored, so an
unsupported extension throws after storage. -/
def handleFileUpload (ext : String) (storageOk dbOk : Bool) : UploadOutcome :=
  if !storageOk then
    { storedBytes := false, insertedRecord := false,
      errorMessage := some "uploadError" }
  else
    match getFileType ext with
    | Except.error e =>
        { storedBytes := true, insertedRecord := false, errorMessage := some e }
    | Except.ok _ =>
        if dbOk then
          { storedBytes := true, insertedRecord := true, errorMessage := none }
        else
          { storedBytes := true, insertedRecord := false,
            errorMessage := some "dbError" }

/-- C7 counterexample: the `access` kind is accepted, not rejected —
`getFileType` maps `accdb` to it and `handleFileUpload` stores the bytes
and creates the record; moreover for a genuinely unsupported extension the
rejection fires only after the bytes are stored. -/
theorem access_not_rejected_counterexample :
    getFileType "accdb" = Except.ok FileType.access ∧
    handleFileUpload "accdb" true true =
      { storedBytes := true, insertedRecord := true, errorMessage := none } ∧
    handleFileUpload "txt" true true =
      { storedBytes := true, insertedRecord := false,
        errorMessage := some "Tipo de arquivo não suportado" } := by
  exact ⟨rfl, rfl, rfl⟩

/-- C7 amended: decoding fails with the empty-file error whenever the data
has fewer than 2 rows; `getFileType` throws the unsupported-format error
for extensions outside {csv, xls, xlsx, mdb, accdb, json} — but the
`access` kind (mdb/accdb) is accepted, and in `handleFileUpload` the
unsupported-extension failure occurs only after the bytes are stored (and
no record is created). -/
theorem upload_kind_checks (dateParseOk : String → Bool)
    (jsonData : List (List Scalar)) (h : jsonData.length < 2)
    (ext e : String) (he : getFileType ext = Except.error e) (dbOk : Bool) :
    processFile dateParseOk jsonData =
      Except.error "File must contain at least a header row and one data row" ∧
    getFileType "accdb" = Except.ok FileType.access ∧
    getFileType "mdb" = Except.ok FileType.access ∧
    handleFileUpload ext true dbOk =
      { storedBytes := true, insertedRecord := false, errorMessage := some e } ∧
    handleFileUpload ext false dbOk =
      { storedBytes := false, insertedRecord := false,
        errorMessage := some "uploadError" } := by
  refine ⟨by rw [processFile, if_pos h], rfl, rfl, ?_, ?_⟩
  · simp [handleFileUpload, he]
  · simp [handleFileUpload]

/-- Witness for the amended C7 at concrete inputs. -/
theorem upload_kind_checks_witness :
    ([] : List (List Scalar)).length < 2 ∧
    getFileType "txt" = Except.error "Tipo de arquivo não suportado" ∧
    processFile (fun _ => false) [] =
      Except.error "File must contain at least a header row and one data row" := by
  refine ⟨by decide, rfl, ?_⟩
  exact (upload_kind_checks (fun _ => false) [] (by decide) "txt"
    "Tipo de arquivo não suportado" rfl true).1

end SistemaX
